import Mathlib

/-!
Shallow embedding of `src/prefect/utilities/settings.py` (Prefect Orion
settings).  The Python file declares a tree of pydantic `BaseSettings`
classes; each scalar field resolves from a constructor override, else from
the environment variable `<env_prefix><FIELD_NAME_UPPERCASE>`, else from the
declared default.  Module-level statements (`SharedSettings = PrefectSettings()`
and the f-string defaults of `DatabaseSettings.connection_url` and
`LoggingSettings.settings_path`) execute when the module is imported, so the
embedding separates the load-time environment from the construction-time
environment.
-/

/-- Process environment: a partial map from variable names to string values. -/
def Env : Type := String → Option String

/-- Environment with no variables set. -/
def envEmpty : Env := fun _ => none

/-- Uppercase one ASCII letter (table form, so that it reduces in the
kernel). -/
def charUpper (c : Char) : Char :=
  match c with
  | 'a' => 'A' | 'b' => 'B' | 'c' => 'C' | 'd' => 'D' | 'e' => 'E' | 'f' => 'F'
  | 'g' => 'G' | 'h' => 'H' | 'i' => 'I' | 'j' => 'J' | 'k' => 'K' | 'l' => 'L'
  | 'm' => 'M' | 'n' => 'N' | 'o' => 'O' | 'p' => 'P' | 'q' => 'Q' | 'r' => 'R'
  | 's' => 'S' | 't' => 'T' | 'u' => 'U' | 'v' => 'V' | 'w' => 'W' | 'x' => 'X'
  | 'y' => 'Y' | 'z' => 'Z'
  | other => other

/-- Lowercase one ASCII letter (table form, so that it reduces in the
kernel). -/
def charLower (c : Char) : Char :=
  match c with
  | 'A' => 'a' | 'B' => 'b' | 'C' => 'c' | 'D' => 'd' | 'E' => 'e' | 'F' => 'f'
  | 'G' => 'g' | 'H' => 'h' | 'I' => 'i' | 'J' => 'j' | 'K' => 'k' | 'L' => 'l'
  | 'M' => 'm' | 'N' => 'n' | 'O' => 'o' | 'P' => 'p' | 'Q' => 'q' | 'R' => 'r'
  | 'S' => 's' | 'T' => 't' | 'U' => 'u' | 'V' => 'v' | 'W' => 'w' | 'X' => 'x'
  | 'Y' => 'y' | 'Z' => 'z'
  | other => other

/-- ASCII uppercasing of a string (`str.upper()` on field names). -/
def strUpper (s : String) : String := String.mk (s.data.map charUpper)

/-- ASCII lowercasing of a string (`str.lower()` in boolean coercion). -/
def strLower (s : String) : String := String.mk (s.data.map charLower)

/-- Parse a list of decimal digit characters into a natural number; `none` if
the list is empty or holds a non-digit. -/
def parseNatDigits (cs : List Char) : Option Nat :=
  if cs.isEmpty then none
  else if cs.all Char.isDigit then
    some (cs.foldl (fun a c => a * 10 + (c.toNat - 48)) 0)
  else none

/-- Numeric parsing of an integer string with optional sign, as Python's
`int()` does on plain decimal input (pydantic's int validator). -/
def parseInt (s : String) : Option Int :=
  match s.toList with
  | '-' :: rest => (parseNatDigits rest).map (fun n => -(n : Int))
  | '+' :: rest => (parseNatDigits rest).map (fun n => (n : Int))
  | cs => (parseNatDigits cs).map (fun n => (n : Int))

/-- Split a character list at dot characters. -/
def splitDot : List Char → List (List Char)
  | [] => [[]]
  | '.' :: rest => [] :: splitDot rest
  | c :: rest =>
    match splitDot rest with
    | [] => [[c]]
    | h :: t => (c :: h) :: t

/-- Numeric parsing of a plain decimal float string (optional sign, digits,
optional fractional part), the fragment of Python's `float()` that the
settings file relies on.  Exact rational values stand in for floats: every
value involved is exactly representable and no arithmetic is performed on
resolved values. -/
def parseFloat (s : String) : Option ℚ :=
  let core : List Char → Option ℚ := fun cs =>
    match splitDot cs with
    | [w] => (parseNatDigits w).map (fun n => (n : ℚ))
    | [w, f] =>
      (parseNatDigits w).bind (fun wn =>
        (parseNatDigits f).map (fun fn =>
          (wn : ℚ) + (fn : ℚ) / ((10 : ℚ) ^ f.length)))
    | _ => none
  match s.toList with
  | '-' :: rest => (core rest).map Neg.neg
  | '+' :: rest => core rest
  | cs => core cs

/-- Boolean parsing as pydantic v1's `bool_validator` accepts string input:
case-insensitive membership in the true/false word sets. -/
def parseBool (s : String) : Option Bool :=
  let l := strLower s
  if l = "1" ∨ l = "on" ∨ l = "t" ∨ l = "true" ∨ l = "y" ∨ l = "yes" then some true
  else if l = "0" ∨ l = "off" ∨ l = "f" ∨ l = "false" ∨ l = "n" ∨ l = "no" then some false
  else none

/-- Duration (timedelta) parsing: a bare count is taken as seconds. -/
def parseDuration (s : String) : Option ℚ := parseFloat s

/-- Path values from the environment are converted verbatim (pydantic's path
validator constructs `Path(v)` without user expansion). -/
def parsePath (s : String) : Option String := some s

/-- String fields accept the raw environment value. -/
def parseStr (s : String) : Option String := some s

/-- Expansion of a leading home-directory marker, as `Path.expanduser` does
for a leading `~` component; the source calls this explicitly on the default
`Path("~/.prefect")`.  (The `~user` form is never used by the source.) -/
def expanduser (userHome p : String) : String :=
  match p.data with
  | ['~'] => userHome
  | '~' :: '/' :: rest => userHome ++ String.mk ('/' :: rest)
  | _ => p

/-- Boolean prefix test on character lists. -/
def listIsPrefixOf : List Char → List Char → Bool
  | [], _ => true
  | _ :: _, [] => false
  | a :: as, b :: bs => a = b && listIsPrefixOf as bs

/-- Boolean contiguous-substring test on character lists. -/
def listContainsSub (needle : List Char) : List Char → Bool
  | [] => needle.isEmpty
  | c :: rest => listIsPrefixOf needle (c :: rest) || listContainsSub needle rest

/-- String `hay` holds `needle` as a contiguous substring. -/
def strContains (hay needle : String) : Bool :=
  listContainsSub needle.toList hay.toList

/-- Modelled from the spec: the validation error raised when an environment
string cannot be coerced to the field's declared type.  pydantic's
`ValidationError` machinery is library code absent from `src/`; the spec
requires the error to report the field name, the group prefix, the raw value
and the expected type, so the model carries exactly those. -/
structure ConfigError where
  fieldName : String
  groupPfx : String
  rawValue : String
  expectedType : String
deriving DecidableEq, Repr

/-- Resolution of one scalar field, as pydantic v1 `BaseSettings` does it:
a constructor override wins; otherwise the environment variable named
`pfx ++ name.toUpper` is parsed with the field's validator (a parse failure
aborts construction); otherwise the declared default is used. -/
def resolveField {α : Type} (name pfx expected : String) (env : Env)
    (parse : String → Option α) (dflt : α) (override : Option α) :
    Except ConfigError α :=
  match override with
  | some v => Except.ok v
  | none =>
    match env (pfx ++ strUpper name) with
    | some raw =>
      match parse raw with
      | some v => Except.ok v
      | none => Except.error ⟨name, pfx, raw, expected⟩
    | none => Except.ok dflt

/-- Modelled from the spec: pydantic's `SecretStr` wrapper (library code
absent from `src/`); its default textual rendering is a fixed mask, an
explicit accessor reveals the raw string, and the designated comparison
compares raw contents. -/
structure SecretStr where
  value : String
deriving DecidableEq, Repr

/-- Default textual rendering of a secret: the fixed mask. -/
def SecretStr.display (_ : SecretStr) : String := "**********"

/-- Explicit reveal accessor for the raw value. -/
def SecretStr.get_secret_value (s : SecretStr) : String := s.value

/-- Top-level settings shared among other classes (`PrefectSettings`). -/
structure PrefectSettings where
  home : String
  debug_mode : Bool
  test_mode : Bool
deriving DecidableEq, Repr

/-- Environment-variable prefix of `PrefectSettings` (`Config.env_prefix`). -/
def PrefectSettings.envPfx : String := "PREFECT_"

/-- Frozen flag of `PrefectSettings` (`Config.frozen = True`). -/
def PrefectSettings.frozenFlag : Bool := true

/-- Constructor overrides for `PrefectSettings`; `none` means the keyword was
not passed. -/
structure PrefectOverrides where
  home : Option String
  debug_mode : Option Bool
  test_mode : Option Bool

/-- No overrides passed. -/
def noPrefectOv : PrefectOverrides := ⟨none, none, none⟩

/-- Construction of `PrefectSettings()`: each field resolves from override,
else environment, else default.  The default of `home` is
`Path("~/.prefect").expanduser()`: the source applies the expansion to the
default expression itself; field resolution performs no expansion. -/
def mkPrefectSettings (userHome : String) (env : Env) (ov : PrefectOverrides) :
    Except ConfigError PrefectSettings := do
  let home ← resolveField "home" PrefectSettings.envPfx "path" env parsePath
    (expanduser userHome "~/.prefect") ov.home
  let dm ← resolveField "debug_mode" PrefectSettings.envPfx "bool" env parseBool
    false ov.debug_mode
  let tm ← resolveField "test_mode" PrefectSettings.envPfx "bool" env parseBool
    false ov.test_mode
  return ⟨home, dm, tm⟩

/-- Derived default of `DatabaseSettings.connection_url`: the class-body
f-string `f"sqlite+aiosqlite:////{SharedSettings.home}/orion.db"`, evaluated
over the shared singleton's resolved `home`.  (pydantic v1 does not validate
defaults, so at runtime the default stays a plain `str`; the model wraps it
as a secret for uniform field typing — the raw characters are identical.) -/
def derivedConnectionUrl (shared : PrefectSettings) : SecretStr :=
  ⟨"sqlite+aiosqlite:////" ++ shared.home ++ "/orion.db"⟩

/-- Derived default of `LoggingSettings.settings_path`: the class-body
expression `Path(f"{SharedSettings.home}/logging.yml")`. -/
def derivedSettingsPath (shared : PrefectSettings) : String :=
  shared.home ++ "/logging.yml"

/-- State produced by executing the module's top level: the shared singleton
`SharedSettings = PrefectSettings()` and the class-body defaults derived from
it.  Python evaluates the two f-strings while the class bodies execute, i.e.
at module load, so the derived defaults are fixed in this state. -/
structure ModuleState where
  sharedSettings : PrefectSettings
  connectionUrlDefault : SecretStr
  settingsPathDefault : String
deriving DecidableEq, Repr

/-- Class-body defaults computed from a resolved shared singleton. -/
def classDefaults (shared : PrefectSettings) : ModuleState :=
  ⟨shared, derivedConnectionUrl shared, derivedSettingsPath shared⟩

/-- Module import under load-time environment `env`: resolve the shared
singleton, then evaluate the class-body derived defaults from it. -/
def moduleLoad (userHome : String) (env : Env) : Except ConfigError ModuleState :=
  (mkPrefectSettings userHome env noPrefectOv).map classDefaults

/-- Settings related to the Orion Data API (`DataLocationSettings`). -/
structure DataLocationSettings where
  name : String
  scheme : String
  base_path : String
deriving DecidableEq, Repr

/-- Environment-variable prefix of `DataLocationSettings`. -/
def DataLocationSettings.envPfx : String := "PREFECT_ORION_DATA_"

/-- Frozen flag of `DataLocationSettings` (`Config.frozen = True`). -/
def DataLocationSettings.frozenFlag : Bool := true

/-- Constructor overrides for `DataLocationSettings`. -/
structure DataLocationOverrides where
  name : Option String
  scheme : Option String
  base_path : Option String

/-- No overrides passed. -/
def noDataLocationOv : DataLocationOverrides := ⟨none, none, none⟩

/-- Construction of `DataLocationSettings()`. -/
def mkDataLocationSettings (env : Env) (ov : DataLocationOverrides) :
    Except ConfigError DataLocationSettings := do
  let n ← resolveField "name" DataLocationSettings.envPfx "str" env parseStr
    "default" ov.name
  let s ← resolveField "scheme" DataLocationSettings.envPfx "str" env parseStr
    "file" ov.scheme
  let b ← resolveField "base_path" DataLocationSettings.envPfx "str" env parseStr
    "/tmp" ov.base_path
  return ⟨n, s, b⟩

/-- Settings related to the Orion database (`DatabaseSettings`). -/
structure DatabaseSettings where
  connection_url : SecretStr
  echo : Bool
  timeout : Option ℚ
  services_timeout : Option ℚ
deriving DecidableEq, Repr

/-- Environment-variable prefix of `DatabaseSettings`. -/
def DatabaseSettings.envPfx : String := "PREFECT_ORION_DATABASE_"

/-- Frozen flag of `DatabaseSettings` (`Config.frozen = True`). -/
def DatabaseSettings.frozenFlag : Bool := true

/-- Constructor overrides for `DatabaseSettings`. -/
structure DatabaseOverrides where
  connection_url : Option SecretStr
  echo : Option Bool
  timeout : Option (Option ℚ)
  services_timeout : Option (Option ℚ)

/-- No overrides passed. -/
def noDatabaseOv : DatabaseOverrides := ⟨none, none, none, none⟩

/-- Construction of `DatabaseSettings()` under construction-time environment
`env`; the default of `connection_url` is the one the class body derived at
module load, recorded in `ms`. -/
def mkDatabaseSettings (ms : ModuleState) (env : Env) (ov : DatabaseOverrides) :
    Except ConfigError DatabaseSettings := do
  let cu ← resolveField "connection_url" DatabaseSettings.envPfx "secret-string"
    env (fun s => some ⟨s⟩) ms.connectionUrlDefault ov.connection_url
  let e ← resolveField "echo" DatabaseSettings.envPfx "bool" env parseBool
    false ov.echo
  let t ← resolveField "timeout" DatabaseSettings.envPfx "float" env
    (fun s => (parseFloat s).map some) (some 1) ov.timeout
  let st ← resolveField "services_timeout" DatabaseSettings.envPfx "float" env
    (fun s => (parseFloat s).map some) none ov.services_timeout
  return ⟨cu, e, t, st⟩

/-- Settings related to the Orion API (`APISettings`).  This class declares
no `Config` in the source, so pydantic's defaults apply to it: an empty
`env_prefix` and a mutable (non-frozen) instance. -/
structure APISettings where
  default_limit : Int
  host : String
  port : Int
  uvicorn_log_level : String
deriving DecidableEq, Repr

/-- Environment-variable prefix of `APISettings`: the source defines no
`Config`, so the pydantic default, the empty string, applies. -/
def APISettings.envPfx : String := ""

/-- Frozen flag of `APISettings`: the source defines no `Config`, so the
pydantic default, not frozen, applies. -/
def APISettings.frozenFlag : Bool := false

/-- Constructor overrides for `APISettings`. -/
structure APIOverrides where
  default_limit : Option Int
  host : Option String
  port : Option Int
  uvicorn_log_level : Option String

/-- No overrides passed. -/
def noAPIOv : APIOverrides := ⟨none, none, none, none⟩

/-- Construction of `APISettings()`. -/
def mkAPISettings (env : Env) (ov : APIOverrides) :
    Except ConfigError APISettings := do
  let dl ← resolveField "default_limit" APISettings.envPfx "int" env parseInt
    200 ov.default_limit
  let h ← resolveField "host" APISettings.envPfx "str" env parseStr
    "127.0.0.1" ov.host
  let p ← resolveField "port" APISettings.envPfx "int" env parseInt
    5000 ov.port
  let u ← resolveField "uvicorn_log_level" APISettings.envPfx "str" env parseStr
    "info" ov.uvicorn_log_level
  return ⟨dl, h, p, u⟩

/-- Settings related to Orion services (`ServicesSettings`); durations are
modelled in seconds (`timedelta(days=100)` is 8640000 seconds). -/
structure ServicesSettings where
  run_in_app : Bool
  scheduler_loop_seconds : ℚ
  scheduler_deployment_batch_size : Int
  scheduler_max_runs : Int
  scheduler_max_scheduled_time : ℚ
  agent_loop_seconds : ℚ
  agent_prefetch_seconds : Int
deriving DecidableEq, Repr

/-- Environment-variable prefix of `ServicesSettings`. -/
def ServicesSettings.envPfx : String := "PREFECT_ORION_SERVICES_"

/-- Frozen flag of `ServicesSettings` (`Config.frozen = True`). -/
def ServicesSettings.frozenFlag : Bool := true

/-- Constructor overrides for `ServicesSettings`. -/
structure ServicesOverrides where
  run_in_app : Option Bool
  scheduler_loop_seconds : Option ℚ
  scheduler_deployment_batch_size : Option Int
  scheduler_max_runs : Option Int
  scheduler_max_scheduled_time : Option ℚ
  agent_loop_seconds : Option ℚ
  agent_prefetch_seconds : Option Int

/-- No overrides passed. -/
def noServicesOv : ServicesOverrides := ⟨none, none, none, none, none, none, none⟩

/-- Construction of `ServicesSettings()`. -/
def mkServicesSettings (env : Env) (ov : ServicesOverrides) :
    Except ConfigError ServicesSettings := do
  let r ← resolveField "run_in_app" ServicesSettings.envPfx "bool" env parseBool
    false ov.run_in_app
  let sls ← resolveField "scheduler_loop_seconds" ServicesSettings.envPfx "float"
    env parseFloat 60 ov.scheduler_loop_seconds
  let sdb ← resolveField "scheduler_deployment_batch_size" ServicesSettings.envPfx
    "int" env parseInt 100 ov.scheduler_deployment_batch_size
  let smr ← resolveField "scheduler_max_runs" ServicesSettings.envPfx "int" env
    parseInt 100 ov.scheduler_max_runs
  let smt ← resolveField "scheduler_max_scheduled_time" ServicesSettings.envPfx
    "duration" env parseDuration 8640000 ov.scheduler_max_scheduled_time
  let als ← resolveField "agent_loop_seconds" ServicesSettings.envPfx "float" env
    parseFloat 5 ov.agent_loop_seconds
  let aps ← resolveField "agent_prefetch_seconds" ServicesSettings.envPfx "int"
    env parseInt 10 ov.agent_prefetch_seconds
  return ⟨r, sls, sdb, smr, smt, als, aps⟩

/-- Settings related to Orion (`OrionSettings`): nested groups declared with
`Field(default_factory=...)`. -/
structure OrionSettings where
  database : DatabaseSettings
  data : DataLocationSettings
  api : APISettings
  services : ServicesSettings
deriving DecidableEq, Repr

/-- Environment-variable prefix of `OrionSettings`. -/
def OrionSettings.envPfx : String := "PREFECT_ORION_"

/-- Frozen flag of `OrionSettings` (`Config.frozen = True`). -/
def OrionSettings.frozenFlag : Bool := true

/-- Constructor overrides for `OrionSettings` (nested groups may be passed
whole). -/
structure OrionOverrides where
  database : Option DatabaseSettings
  data : Option DataLocationSettings
  api : Option APISettings
  services : Option ServicesSettings

/-- No overrides passed. -/
def noOrionOv : OrionOverrides := ⟨none, none, none, none⟩

/-- Construction of `OrionSettings()`: for each nested-group field with no
override, the stored zero-argument `default_factory` is invoked here, once
per parent construction, producing a fresh nested group resolved under the
construction-time environment `env`. -/
def mkOrionSettings (ms : ModuleState) (env : Env) (ov : OrionOverrides) :
    Except ConfigError OrionSettings := do
  let database ← match ov.database with
    | some d => Except.ok d
    | none => mkDatabaseSettings ms env noDatabaseOv
  let data ← match ov.data with
    | some d => Except.ok d
    | none => mkDataLocationSettings env noDataLocationOv
  let api ← match ov.api with
    | some a => Except.ok a
    | none => mkAPISettings env noAPIOv
  let services ← match ov.services with
    | some s => Except.ok s
    | none => mkServicesSettings env noServicesOv
  return ⟨database, data, api, services⟩

/-- Settings related to Logging (`LoggingSettings`). -/
structure LoggingSettings where
  settings_path : String
deriving DecidableEq, Repr

/-- Environment-variable prefix of `LoggingSettings`. -/
def LoggingSettings.envPfx : String := "PREFECT_LOGGING_"

/-- Frozen flag of `LoggingSettings` (`Config.frozen = True`). -/
def LoggingSettings.frozenFlag : Bool := true

/-- Constructor overrides for `LoggingSettings`. -/
structure LoggingOverrides where
  settings_path : Option String

/-- No overrides passed. -/
def noLoggingOv : LoggingOverrides := ⟨none⟩

/-- Construction of `LoggingSettings()`; the default of `settings_path` is
the one the class body derived at module load, recorded in `ms`. -/
def mkLoggingSettings (ms : ModuleState) (env : Env) (ov : LoggingOverrides) :
    Except ConfigError LoggingSettings := do
  let sp ← resolveField "settings_path" LoggingSettings.envPfx "path" env
    parsePath ms.settingsPathDefault ov.settings_path
  return ⟨sp⟩

/-- Root settings (`Settings(PrefectSettings)`): inherits the shared fields
and `Config` (prefix `PREFECT_`, frozen), then adds the nested `logging` and
`orion` groups and `orion_host`.  The source annotates `orion_host` as `str`
with default `None`; pydantic v1 widens a `None` default to an optional
field, so the resolved value is an optional string. -/
structure Settings where
  home : String
  debug_mode : Bool
  test_mode : Bool
  logging : LoggingSettings
  orion : OrionSettings
  orion_host : Option String
deriving DecidableEq, Repr

/-- Declared annotation of `Settings.orion_host` in the source. -/
def Settings.orionHostDeclaredType : String := "str"

/-- Frozen flag of `Settings` (inherited from `PrefectSettings.Config`). -/
def Settings.frozenFlag : Bool := true

/-- Constructor overrides for `Settings`. -/
structure SettingsOverrides where
  home : Option String
  debug_mode : Option Bool
  test_mode : Option Bool
  logging : Option LoggingSettings
  orion : Option OrionSettings
  orion_host : Option (Option String)

/-- No overrides passed. -/
def noSettingsOv : SettingsOverrides := ⟨none, none, none, none, none, none⟩

/-- Construction of `Settings()`: inherited scalar fields first, then the
nested `logging` and `orion` groups through their default factories, then
`orion_host` (environment variable `PREFECT_ORION_HOST`). -/
def mkSettings (userHome : String) (ms : ModuleState) (env : Env)
    (ov : SettingsOverrides) : Except ConfigError Settings := do
  let home ← resolveField "home" PrefectSettings.envPfx "path" env parsePath
    (expanduser userHome "~/.prefect") ov.home
  let dm ← resolveField "debug_mode" PrefectSettings.envPfx "bool" env parseBool
    false ov.debug_mode
  let tm ← resolveField "test_mode" PrefectSettings.envPfx "bool" env parseBool
    false ov.test_mode
  let logging ← match ov.logging with
    | some l => Except.ok l
    | none => mkLoggingSettings ms env noLoggingOv
  let orion ← match ov.orion with
    | some o => Except.ok o
    | none => mkOrionSettings ms env noOrionOv
  let oh ← resolveField "orion_host" PrefectSettings.envPfx "str" env
    (fun s => some (some s)) none ov.orion_host
  return ⟨home, dm, tm, logging, orion, oh⟩

/-- Error raised by an assignment to a field of a constructed instance. -/
inductive SetAttrError where
  | immutability
deriving DecidableEq, Repr

/-- Attribute assignment as pydantic performs it: on a frozen model every
assignment raises an immutability error and the instance is untouched; on a
mutable model the field is updated in place. -/
def trySetAttr {α : Type} (frozenFlag : Bool) (inst : α) (update : α → α) :
    Except SetAttrError α :=
  if frozenFlag then Except.error SetAttrError.immutability
  else Except.ok (update inst)

/-- Assignment `instance.port = v` on an `APISettings` instance. -/
def APISettings.setPort (s : APISettings) (v : Int) :
    Except SetAttrError APISettings :=
  trySetAttr APISettings.frozenFlag s
    (fun t => ⟨t.default_limit, t.host, v, t.uvicorn_log_level⟩)

/-- Assignment `instance.echo = v` on a `DatabaseSettings` instance. -/
def DatabaseSettings.setEcho (s : DatabaseSettings) (v : Bool) :
    Except SetAttrError DatabaseSettings :=
  trySetAttr DatabaseSettings.frozenFlag s
    (fun t => ⟨t.connection_url, v, t.timeout, t.services_timeout⟩)

/-- Values that may be passed as keyword overrides, including the module's
`NOTSET` sentinel (`NotSetType` instances are equal exactly to other
`NotSetType` instances, so `value != NOTSET` holds exactly for non-sentinel
values of these kinds). -/
inductive OvValue where
  | notset
  | vnone
  | vstr (s : String)
  | vint (n : Int)
  | vbool (b : Bool)
deriving DecidableEq, Repr

/-- The module's `drop_unset` helper: keep exactly the keyword entries whose
value is not the `NOTSET` sentinel, in original order. -/
def drop_unset (kwargs : List (String × OvValue)) : List (String × OvValue) :=
  kwargs.filter (fun kv => kv.2 ≠ OvValue.notset)

/-- Load-time environment with `PREFECT_HOME=/a`. -/
def envHomeA : Env := fun k => if k = "PREFECT_HOME" then some "/a" else none

/-- Construction-time environment with `PREFECT_HOME=/b`. -/
def envHomeB : Env := fun k => if k = "PREFECT_HOME" then some "/b" else none

/-- Module state after loading under `envHomeA`: the shared home resolved to
`/a` and the derived defaults were computed from it. -/
def msLoadA : ModuleState := classDefaults ⟨"/a", false, false⟩

/-- `DatabaseSettings` built under `envHomeB` from the `envHomeA`-loaded
module state. -/
def dbLoadAConstrB : DatabaseSettings :=
  ⟨⟨"sqlite+aiosqlite://///a/orion.db"⟩, false, some 1, none⟩

/-- Module state whose shared home resolved to `/home/u`. -/
def msHomeU : ModuleState := classDefaults ⟨"/home/u", false, false⟩

/-- `DatabaseSettings` resolved under an empty environment from `msHomeU`. -/
def dbHomeU : DatabaseSettings :=
  ⟨⟨"sqlite+aiosqlite://///home/u/orion.db"⟩, false, some 1, none⟩

/-- Environment with `PREFECT_ORION_DATABASE_TIMEOUT=30`. -/
def env30 : Env :=
  fun k => if k = "PREFECT_ORION_DATABASE_TIMEOUT" then some "30" else none

/-- Environment with `PREFECT_ORION_DATABASE_TIMEOUT=60`. -/
def env60 : Env :=
  fun k => if k = "PREFECT_ORION_DATABASE_TIMEOUT" then some "60" else none

/-- `DatabaseSettings` resolved from `msHomeU` under `env30`. -/
def dbTimeout30 : DatabaseSettings :=
  ⟨⟨"sqlite+aiosqlite://///home/u/orion.db"⟩, false, some 30, none⟩

/-- `DatabaseSettings` resolved from `msHomeU` under `env60`. -/
def dbTimeout60 : DatabaseSettings :=
  ⟨⟨"sqlite+aiosqlite://///home/u/orion.db"⟩, false, some 60, none⟩

/-- `DataLocationSettings` resolved under an empty environment. -/
def dataDefaultInst : DataLocationSettings := ⟨"default", "file", "/tmp"⟩

/-- `APISettings` resolved under an empty environment. -/
def apiDefault : APISettings := ⟨200, "127.0.0.1", 5000, "info"⟩

/-- `ServicesSettings` resolved under an empty environment. -/
def servicesDefault : ServicesSettings := ⟨false, 60, 100, 100, 8640000, 5, 10⟩

/-- `OrionSettings` resolved from `msHomeU` under `env30`. -/
def orion30 : OrionSettings := ⟨dbTimeout30, dataDefaultInst, apiDefault, servicesDefault⟩

/-- `OrionSettings` resolved from `msHomeU` under `env60`. -/
def orion60 : OrionSettings := ⟨dbTimeout60, dataDefaultInst, apiDefault, servicesDefault⟩

/-- Environment with `PREFECT_ORION_DATABASE_ECHO=maybe`. -/
def envEchoMaybe : Env :=
  fun k => if k = "PREFECT_ORION_DATABASE_ECHO" then some "maybe" else none

/-- The type-coercion error for field `echo` on raw value `maybe`. -/
def echoErr : ConfigError := ⟨"echo", "PREFECT_ORION_DATABASE_", "maybe", "bool"⟩

/-- Environment with the bare, unprefixed variable `HOST=0.0.0.0`. -/
def envHost : Env := fun k => if k = "HOST" then some "0.0.0.0" else none

/-- Environment with `PREFECT_HOME=~/x` (a value with a leading tilde). -/
def envTilde : Env := fun k => if k = "PREFECT_HOME" then some "~/x" else none

/-- Module state after loading under an empty environment with user home
`/home/u`: the shared home is the expanded default `~/.prefect`. -/
def msEmptyLoad : ModuleState := classDefaults ⟨"/home/u/.prefect", false, false⟩

/-- The fully resolved root `Settings` tree under an empty environment. -/
def settingsFull : Settings :=
  ⟨"/home/u/.prefect", false, false, ⟨"/home/u/.prefect/logging.yml"⟩,
    ⟨⟨⟨"sqlite+aiosqlite://///home/u/.prefect/orion.db"⟩, false, some 1, none⟩,
      dataDefaultInst, apiDefault, servicesDefault⟩, none⟩

/-- A field with an explicit (non-sentinel) override resolves to it. -/
lemma resolveField_of_override {α : Type} (name pfx expected : String)
    (env : Env) (parse : String → Option α) (dflt : α) (v : α) :
    resolveField name pfx expected env parse dflt (some v) = Except.ok v := rfl

/-- With no override, a parsable environment value wins. -/
lemma resolveField_of_env {α : Type} (name pfx expected : String) (env : Env)
    (parse : String → Option α) (dflt : α) (raw : String) (v : α)
    (henv : env (pfx ++ strUpper name) = some raw) (hp : parse raw = some v) :
    resolveField name pfx expected env parse dflt none = Except.ok v := by
  simp [resolveField, henv, hp]

/-- With no override and no environment value, the default is used. -/
lemma resolveField_of_none {α : Type} (name pfx expected : String) (env : Env)
    (parse : String → Option α) (dflt : α)
    (henv : env (pfx ++ strUpper name) = none) :
    resolveField name pfx expected env parse dflt none = Except.ok dflt := by
  simp [resolveField, henv]

/-- With no override, an unparsable environment value aborts resolution with
a coercion error naming the field, prefix, raw value and expected type. -/
lemma resolveField_of_parse_fail {α : Type} (name pfx expected : String)
    (env : Env) (parse : String → Option α) (dflt : α) (raw : String)
    (henv : env (pfx ++ strUpper name) = some raw) (hp : parse raw = none) :
    resolveField name pfx expected env parse dflt none =
      Except.error ⟨name, pfx, raw, expected⟩ := by
  simp [resolveField, henv, hp]

/-- A field whose validator is total always resolves successfully. -/
lemma resolveField_total_ok {α : Type} (name pfx expected : String) (env : Env)
    (parse : String → Option α) (dflt : α)
    (hp : ∀ s, (parse s).isSome) :
    ∃ v, resolveField name pfx expected env parse dflt none = Except.ok v := by
  cases he : env (pfx ++ strUpper name) with
  | none => exact ⟨dflt, by simp [resolveField, he]⟩
  | some raw =>
    cases hpr : parse raw with
    | none =>
      have h := hp raw
      rw [hpr] at h
      cases h
    | some v => exact ⟨v, by simp [resolveField, he, hpr]⟩

/-- Inversion of a successful `PrefectSettings` construction without
overrides: each stored field is its own resolution result. -/
lemma mkPrefectSettings_ok_inv (userHome : String) (env : Env)
    (p : PrefectSettings)
    (h : mkPrefectSettings userHome env noPrefectOv = Except.ok p) :
    resolveField "home" PrefectSettings.envPfx "path" env parsePath
      (expanduser userHome "~/.prefect") none = Except.ok p.home
    ∧ resolveField "debug_mode" PrefectSettings.envPfx "bool" env parseBool
      false none = Except.ok p.debug_mode
    ∧ resolveField "test_mode" PrefectSettings.envPfx "bool" env parseBool
      false none = Except.ok p.test_mode := by
  unfold mkPrefectSettings at h
  simp only [noPrefectOv, bind, Except.bind] at h
  split at h
  next e heq => cases h
  next hm heq =>
    split at h
    next e heq2 => cases h
    next dm heq2 =>
      split at h
      next e heq3 => cases h
      next tm heq3 =>
        simp only [pure, Except.pure] at h
        cases h
        exact ⟨heq, heq2, heq3⟩

/-- Inversion of a successful `DatabaseSettings` construction without
overrides: each stored field is its own resolution result. -/
lemma mkDatabaseSettings_ok_inv (ms : ModuleState) (env : Env)
    (db : DatabaseSettings)
    (h : mkDatabaseSettings ms env noDatabaseOv = Except.ok db) :
    resolveField "connection_url" DatabaseSettings.envPfx "secret-string" env
      (fun s => some ⟨s⟩) ms.connectionUrlDefault none = Except.ok db.connection_url
    ∧ resolveField "echo" DatabaseSettings.envPfx "bool" env parseBool
      false none = Except.ok db.echo
    ∧ resolveField "timeout" DatabaseSettings.envPfx "float" env
      (fun s => (parseFloat s).map some) (some 1) none = Except.ok db.timeout
    ∧ resolveField "services_timeout" DatabaseSettings.envPfx "float" env
      (fun s => (parseFloat s).map some) none none = Except.ok db.services_timeout := by
  unfold mkDatabaseSettings at h
  simp only [noDatabaseOv, bind, Except.bind] at h
  split at h
  next e heq => cases h
  next cu heq =>
    split at h
    next e heq2 => cases h
    next ec heq2 =>
      split at h
      next e heq3 => cases h
      next t heq3 =>
        split at h
        next e heq4 => cases h
        next st heq4 =>
          simp only [pure, Except.pure] at h
          cases h
          exact ⟨heq, heq2, heq3, heq4⟩

/-- Inversion of a successful `OrionSettings` construction without overrides:
each stored nested group is the result of its default factory, invoked under
the construction-time environment. -/
lemma mkOrionSettings_ok_inv (ms : ModuleState) (env : Env) (o : OrionSettings)
    (h : mkOrionSettings ms env noOrionOv = Except.ok o) :
    mkDatabaseSettings ms env noDatabaseOv = Except.ok o.database
    ∧ mkDataLocationSettings env noDataLocationOv = Except.ok o.data
    ∧ mkAPISettings env noAPIOv = Except.ok o.api
    ∧ mkServicesSettings env noServicesOv = Except.ok o.services := by
  unfold mkOrionSettings at h
  simp only [noOrionOv, bind, Except.bind] at h
  split at h
  next e heq => cases h
  next d heq =>
    split at h
    next e heq2 => cases h
    next dt heq2 =>
      split at h
      next e heq3 => cases h
      next a heq3 =>
        split at h
        next e heq4 => cases h
        next sv heq4 =>
          simp only [pure, Except.pure] at h
          cases h
          exact ⟨heq, heq2, heq3, heq4⟩

/-- A successfully constructed `DatabaseSettings` stores the parsed value of
`PREFECT_ORION_DATABASE_TIMEOUT` in `timeout`. -/
lemma mkDatabaseSettings_timeout_of_env (ms : ModuleState) (env : Env)
    (db : DatabaseSettings) (s : String) (q : ℚ)
    (henv : env "PREFECT_ORION_DATABASE_TIMEOUT" = some s)
    (hq : parseFloat s = some q)
    (h : mkDatabaseSettings ms env noDatabaseOv = Except.ok db) :
    db.timeout = some q := by
  obtain ⟨-, -, ht, -⟩ := mkDatabaseSettings_ok_inv ms env db h
  have hkey : DatabaseSettings.envPfx ++ strUpper "timeout" =
      "PREFECT_ORION_DATABASE_TIMEOUT" := rfl
  rw [resolveField_of_env "timeout" DatabaseSettings.envPfx "float" env
    (fun s => (parseFloat s).map some) (some 1) s (some q)
    (by rw [hkey]; exact henv) (by simp [hq])] at ht
  exact (Except.ok.inj ht).symm

/-- C1 counterexample: the claim says the derived default of
`connection_url` is computed when the owning field resolves during group
construction, observing the Shared Context value current at that time.  Load
the module with `PREFECT_HOME=/a`, then construct `DatabaseSettings` while
`PREFECT_HOME=/b` is current (so the Shared Context field would resolve to
`/b` at construction time): the resolved connection string still holds
`/a/orion.db` and holds `/b` nowhere, because the f-string default was
evaluated once at module load. -/
theorem c1_counterexample :
    moduleLoad "/root" envHomeA = Except.ok msLoadA
    ∧ mkPrefectSettings "/root" envHomeB noPrefectOv = Except.ok ⟨"/b", false, false⟩
    ∧ mkDatabaseSettings msLoadA envHomeB noDatabaseOv = Except.ok dbLoadAConstrB
    ∧ strContains dbLoadAConstrB.connection_url.value "/a/orion.db" = true
    ∧ strContains dbLoadAConstrB.connection_url.value "/b" = false :=
  ⟨rfl, rfl, rfl, rfl, rfl⟩

/-- C1 amended: derived defaults are computed once at module load, when the
class bodies execute, from the Shared Context singleton resolved at that
moment; a later construction with no override and no
`PREFECT_ORION_DATABASE_CONNECTION_URL` variable stores that load-time
derived default, and when the shared home resolved to `/home/u` at load the
connection string holds `/home/u/orion.db`. -/
theorem c1_derived_default_at_load (shared : PrefectSettings) (env : Env)
    (db : DatabaseSettings)
    (hhome : shared.home = "/home/u")
    (henv : env "PREFECT_ORION_DATABASE_CONNECTION_URL" = none)
    (h : mkDatabaseSettings (classDefaults shared) env noDatabaseOv = Except.ok db) :
    db.connection_url = derivedConnectionUrl shared
    ∧ strContains db.connection_url.value "/home/u/orion.db" = true := by
  obtain ⟨hcu, -, -, -⟩ := mkDatabaseSettings_ok_inv (classDefaults shared) env db h
  have hkey : DatabaseSettings.envPfx ++ strUpper "connection_url" =
      "PREFECT_ORION_DATABASE_CONNECTION_URL" := rfl
  rw [resolveField_of_none "connection_url" DatabaseSettings.envPfx
    "secret-string" env (fun s => some ⟨s⟩)
    (classDefaults shared).connectionUrlDefault (by rw [hkey]; exact henv)] at hcu
  have hval : db.connection_url = derivedConnectionUrl shared :=
    (Except.ok.inj hcu).symm
  refine ⟨hval, ?_⟩
  rw [hval]
  show strContains (derivedConnectionUrl shared).value "/home/u/orion.db" = true
  unfold derivedConnectionUrl
  rw [hhome]
  rfl

/-- C1 witness: the amended theorem at a concrete input. -/
theorem c1_witness :
    dbHomeU.connection_url = derivedConnectionUrl ⟨"/home/u", false, false⟩
    ∧ strContains dbHomeU.connection_url.value "/home/u/orion.db" = true :=
  c1_derived_default_at_load ⟨"/home/u", false, false⟩ envEmpty dbHomeU rfl rfl rfl

/-- C2: the claim says every group in the tree rejects post-construction
field assignment.  The source gives `APISettings` no `Config` class, so
pydantic's default applies and its instances are mutable: constructing
`APISettings()` under an empty environment and then assigning
`instance.port = 9999` succeeds and changes the stored value, where the
claim requires an immutability error and an unchanged field (contrast the
frozen `DatabaseSettings`, where assignment is rejected). -/
theorem c2_api_settings_mutable :
    mkAPISettings envEmpty noAPIOv = Except.ok apiDefault
    ∧ APISettings.frozenFlag = false
    ∧ APISettings.setPort apiDefault 9999 = Except.ok ⟨200, "127.0.0.1", 9999, "info"⟩
    ∧ (⟨200, "127.0.0.1", 9999, "info"⟩ : APISettings).port ≠ apiDefault.port
    ∧ DatabaseSettings.frozenFlag = true
    ∧ DatabaseSettings.setEcho dbHomeU true = Except.error SetAttrError.immutability :=
  ⟨rfl, rfl, rfl, by decide, rfl, rfl⟩

/-- C3: each nested-group field of `OrionSettings` stores a zero-argument
default factory that runs once per parent construction: the nested group a
parent stores is exactly a fresh construction under the construction-time
environment, so two parent constructions under environments that differ in
`PREFECT_ORION_DATABASE_TIMEOUT` (30 versus 60) store nested database groups
whose resolved `timeout` values differ accordingly. -/
theorem c3_nested_factory_per_construction (ms : ModuleState) (env1 env2 : Env)
    (o1 o2 : OrionSettings)
    (h1 : env1 "PREFECT_ORION_DATABASE_TIMEOUT" = some "30")
    (h2 : env2 "PREFECT_ORION_DATABASE_TIMEOUT" = some "60")
    (ho1 : mkOrionSettings ms env1 noOrionOv = Except.ok o1)
    (ho2 : mkOrionSettings ms env2 noOrionOv = Except.ok o2) :
    mkDatabaseSettings ms env1 noDatabaseOv = Except.ok o1.database
    ∧ mkDatabaseSettings ms env2 noDatabaseOv = Except.ok o2.database
    ∧ o1.database.timeout = some 30
    ∧ o2.database.timeout = some 60
    ∧ o1.database ≠ o2.database := by
  obtain ⟨hdb1, -, -, -⟩ := mkOrionSettings_ok_inv ms env1 o1 ho1
  obtain ⟨hdb2, -, -, -⟩ := mkOrionSettings_ok_inv ms env2 o2 ho2
  have ht1 : o1.database.timeout = some 30 :=
    mkDatabaseSettings_timeout_of_env ms env1 o1.database "30" 30 h1 rfl hdb1
  have ht2 : o2.database.timeout = some 60 :=
    mkDatabaseSettings_timeout_of_env ms env2 o2.database "60" 60 h2 rfl hdb2
  refine ⟨hdb1, hdb2, ht1, ht2, fun hEq => ?_⟩
  rw [hEq, ht2] at ht1
  exact absurd ht1 (by decide)

/-- C3 witness: the theorem at concrete module state and environments. -/
theorem c3_witness :
    mkDatabaseSettings msHomeU env30 noDatabaseOv = Except.ok orion30.database
    ∧ mkDatabaseSettings msHomeU env60 noDatabaseOv = Except.ok orion60.database
    ∧ orion30.database.timeout = some 30
    ∧ orion60.database.timeout = some 60
    ∧ orion30.database ≠ orion60.database :=
  c3_nested_factory_per_construction msHomeU env30 env60 orion30 orion60
    rfl rfl rfl rfl

/-- C4: a scalar field resolves in the order override, then parsed
environment value under the field's `env_key`, then declared default; in
particular `PREFECT_ORION_DATABASE_TIMEOUT=30` makes the float-typed
`timeout` field (default 1) resolve to the exact value 30. -/
theorem c4_resolution_order :
    (∀ (α : Type) (name pfx expected : String) (env : Env)
        (parse : String → Option α) (dflt v : α),
      resolveField name pfx expected env parse dflt (some v) = Except.ok v)
    ∧ (∀ (α : Type) (name pfx expected : String) (env : Env)
        (parse : String → Option α) (dflt : α) (raw : String) (v : α),
      env (pfx ++ strUpper name) = some raw → parse raw = some v →
      resolveField name pfx expected env parse dflt none = Except.ok v)
    ∧ (∀ (α : Type) (name pfx expected : String) (env : Env)
        (parse : String → Option α) (dflt : α),
      env (pfx ++ strUpper name) = none →
      resolveField name pfx expected env parse dflt none = Except.ok dflt)
    ∧ (∀ (ms : ModuleState) (env : Env) (db : DatabaseSettings),
      env "PREFECT_ORION_DATABASE_TIMEOUT" = some "30" →
      mkDatabaseSettings ms env noDatabaseOv = Except.ok db →
      db.timeout = some 30) := by
  refine ⟨?_, ?_, ?_, ?_⟩
  · intro α name pfx expected env parse dflt v
    exact resolveField_of_override name pfx expected env parse dflt v
  · intro α name pfx expected env parse dflt raw v henv hp
    exact resolveField_of_env name pfx expected env parse dflt raw v henv hp
  · intro α name pfx expected env parse dflt henv
    exact resolveField_of_none name pfx expected env parse dflt henv
  · intro ms env db henv h
    exact mkDatabaseSettings_timeout_of_env ms env db "30" 30 henv rfl h

/-- C4 witness: the override branch and the environment scenario at concrete
inputs. -/
theorem c4_witness :
    resolveField "timeout" DatabaseSettings.envPfx "float" envEmpty
      (fun s => (parseFloat s).map some) (some 1) (some (some 5)) =
        Except.ok (some 5)
    ∧ dbTimeout30.timeout = some 30 :=
  ⟨c4_resolution_order.1 (Option ℚ) "timeout" DatabaseSettings.envPfx "float"
      envEmpty (fun s => (parseFloat s).map some) (some 1) (some 5),
    c4_resolution_order.2.2.2 msHomeU env30 dbTimeout30 rfl rfl⟩

/-- C5: an environment string that cannot be coerced to the field's declared
type makes construction of the owning group, and of every enclosing group up
to the root tree, fail synchronously with a coercion error carrying the field
name, group prefix, raw value and expected type, and no instance is produced;
in particular `PREFECT_ORION_DATABASE_ECHO=maybe` fails naming field `echo`.
The last conjunct states the general fact for `echo`: any raw value rejected
by the boolean validator aborts `DatabaseSettings` with that error. -/
theorem c5_type_coercion_fail_fast :
    mkDatabaseSettings msHomeU envEchoMaybe noDatabaseOv = Except.error echoErr
    ∧ mkOrionSettings msHomeU envEchoMaybe noOrionOv = Except.error echoErr
    ∧ mkSettings "/home/u" msHomeU envEchoMaybe noSettingsOv = Except.error echoErr
    ∧ (∀ (ms : ModuleState) (env : Env) (raw : String),
      env "PREFECT_ORION_DATABASE_ECHO" = some raw → parseBool raw = none →
      mkDatabaseSettings ms env noDatabaseOv =
        Except.error ⟨"echo", "PREFECT_ORION_DATABASE_", raw, "bool"⟩) := by
  refine ⟨rfl, rfl, rfl, ?_⟩
  intro ms env raw henv hp
  obtain ⟨cu, hcu⟩ := resolveField_total_ok "connection_url"
    DatabaseSettings.envPfx "secret-string" env (fun s => some ⟨s⟩)
    ms.connectionUrlDefault (fun _ => rfl)
  have hkey : DatabaseSettings.envPfx ++ strUpper "echo" =
      "PREFECT_ORION_DATABASE_ECHO" := rfl
  have hecho := resolveField_of_parse_fail "echo" DatabaseSettings.envPfx
    "bool" env parseBool false raw (by rw [hkey]; exact henv) hp
  unfold mkDatabaseSettings
  simp only [noDatabaseOv, bind, Except.bind]
  rw [hcu, hecho]
  rfl

/-- C6: the claim says every group, the API group included, is bound to its
own fixed non-conflicting prefix.  The source gives `APISettings` no
`Config`, so its prefix is pydantic's default, the empty string: its env
keys are the bare uppercased field names, and the generic variable `HOST`
(no group prefix) is consumed by resolution — unlike every sibling group,
which carries its own `PREFECT_...` prefix. -/
theorem c6_api_group_unprefixed :
    APISettings.envPfx = ""
    ∧ APISettings.envPfx ++ strUpper "host" = "HOST"
    ∧ mkAPISettings envHost noAPIOv = Except.ok ⟨200, "0.0.0.0", 5000, "info"⟩
    ∧ PrefectSettings.envPfx = "PREFECT_"
    ∧ DataLocationSettings.envPfx = "PREFECT_ORION_DATA_"
    ∧ DatabaseSettings.envPfx = "PREFECT_ORION_DATABASE_"
    ∧ ServicesSettings.envPfx = "PREFECT_ORION_SERVICES_"
    ∧ LoggingSettings.envPfx = "PREFECT_LOGGING_" :=
  ⟨rfl, rfl, rfl, rfl, rfl, rfl, rfl, rfl⟩

/-- C7 counterexample: the claim says the default rendering never contains
the raw value's characters, for every raw string.  A raw value that itself
consists of the mask character refutes it: the rendering of the secret built
from `*` is the mask, which contains the raw value's only character. -/
theorem c7_counterexample :
    SecretStr.display ⟨"*"⟩ = "**********"
    ∧ '*' ∈ (SecretStr.display ⟨"*"⟩).data
    ∧ '*' ∈ (SecretStr.mk "*").value.data :=
  ⟨rfl, by decide, by decide⟩

/-- C7 amended: for a secret whose raw value contains no mask character
`*`, the default rendering contains none of the raw value's characters; the
reveal accessor returns exactly the raw string; and two secrets are equal
under the designated comparison exactly when their raw strings are equal. -/
theorem c7_secret_masking (s t : SecretStr)
    (hs : ∀ c ∈ s.value.data, c ≠ '*') :
    (∀ c ∈ s.value.data, c ∉ (SecretStr.display s).data)
    ∧ SecretStr.get_secret_value s = s.value
    ∧ (s = t ↔ s.value = t.value) := by
  refine ⟨?_, rfl, ?_⟩
  · intro c hc hmem
    have hd : (SecretStr.display s).data =
        ['*', '*', '*', '*', '*', '*', '*', '*', '*', '*'] := rfl
    rw [hd] at hmem
    have hc2 : c = '*' := by simpa using hmem
    exact hs c hc hc2
  · constructor
    · intro h
      rw [h]
    · intro h
      exact congrArg SecretStr.mk h

/-- C7 witness: the amended theorem at a concrete secret. -/
theorem c7_witness :
    (∀ c ∈ (SecretStr.mk "hunter2").value.data,
      c ∉ (SecretStr.display ⟨"hunter2"⟩).data)
    ∧ SecretStr.get_secret_value ⟨"hunter2"⟩ = "hunter2"
    ∧ ((⟨"hunter2"⟩ : SecretStr) = ⟨"hunter2"⟩ ↔
        (SecretStr.mk "hunter2").value = (SecretStr.mk "hunter2").value) :=
  c7_secret_masking ⟨"hunter2"⟩ ⟨"hunter2"⟩ (by decide)

/-- C8 counterexample: the claim says a leading `~` is expanded regardless of
whether the value comes from the default or from the environment variable.
With `PREFECT_HOME=~/x` the resolved `home` is the verbatim `~/x`, not the
expansion `/home/u/x` the claim predicts. -/
theorem c8_counterexample :
    mkPrefectSettings "/home/u" envTilde noPrefectOv =
      Except.ok ⟨"~/x", false, false⟩
    ∧ expanduser "/home/u" "~/x" = "/home/u/x"
    ∧ (⟨"~/x", false, false⟩ : PrefectSettings).home ≠ "/home/u/x" :=
  ⟨rfl, rfl, by decide⟩

/-- C8 amended: the home-directory expansion applies only to the declared
default (the source calls `expanduser` on the default expression itself);
with no environment value the resolved `home` is the expanded default, and
an environment-supplied value is stored verbatim, unexpanded. -/
theorem c8_path_expansion_default_only :
    (∀ (userHome : String) (env : Env) (p : PrefectSettings),
      env "PREFECT_HOME" = none →
      mkPrefectSettings userHome env noPrefectOv = Except.ok p →
      p.home = expanduser userHome "~/.prefect"
      ∧ p.home = userHome ++ "/.prefect")
    ∧ (∀ (userHome : String) (env : Env) (p : PrefectSettings) (s : String),
      env "PREFECT_HOME" = some s →
      mkPrefectSettings userHome env noPrefectOv = Except.ok p →
      p.home = s) := by
  constructor
  · intro userHome env p henv h
    obtain ⟨hh, -, -⟩ := mkPrefectSettings_ok_inv userHome env p h
    have hkey : PrefectSettings.envPfx ++ strUpper "home" = "PREFECT_HOME" := rfl
    rw [resolveField_of_none "home" PrefectSettings.envPfx "path" env parsePath
      (expanduser userHome "~/.prefect") (by rw [hkey]; exact henv)] at hh
    have hv := (Except.ok.inj hh).symm
    refine ⟨hv, ?_⟩
    rw [hv]
    rfl
  · intro userHome env p s henv h
    obtain ⟨hh, -, -⟩ := mkPrefectSettings_ok_inv userHome env p h
    have hkey : PrefectSettings.envPfx ++ strUpper "home" = "PREFECT_HOME" := rfl
    rw [resolveField_of_env "home" PrefectSettings.envPfx "path" env parsePath
      (expanduser userHome "~/.prefect") s s (by rw [hkey]; exact henv) rfl] at hh
    exact (Except.ok.inj hh).symm

/-- C8 witness: the amended theorem's two branches at concrete inputs. -/
theorem c8_witness :
    ((⟨"/home/u/.prefect", false, false⟩ : PrefectSettings).home =
        expanduser "/home/u" "~/.prefect"
      ∧ (⟨"/home/u/.prefect", false, false⟩ : PrefectSettings).home =
        "/home/u" ++ "/.prefect")
    ∧ (⟨"~/x", false, false⟩ : PrefectSettings).home = "~/x" :=
  ⟨c8_path_expansion_default_only.1 "/home/u" envEmpty
      ⟨"/home/u/.prefect", false, false⟩ rfl rfl,
    c8_path_expansion_default_only.2 "/home/u" envTilde
      ⟨"~/x", false, false⟩ "~/x" rfl rfl⟩

/-- C9: `drop_unset` returns a mapping with exactly the entries whose value
is not the sentinel, keys and order preserved (the result is a sublist of
the input); entries whose values are `None` or the empty string are not the
sentinel, so they are retained. -/
theorem c9_drop_unset (kwargs : List (String × OvValue)) :
    List.Sublist (drop_unset kwargs) kwargs
    ∧ (∀ kv : String × OvValue, kv ∈ kwargs → kv.2 ≠ OvValue.notset →
        kv ∈ drop_unset kwargs)
    ∧ (∀ kv : String × OvValue, kv ∈ drop_unset kwargs →
        kv ∈ kwargs ∧ kv.2 ≠ OvValue.notset) := by
  refine ⟨List.filter_sublist _, ?_, ?_⟩
  · intro kv hm hns
    exact List.mem_filter.mpr ⟨hm, by simpa using hns⟩
  · intro kv hm
    have h := List.mem_filter.mp hm
    exact ⟨h.1, by simpa using h.2⟩

/-- C9 witness: a `None`-valued and an empty-string-valued entry survive the
sentinel filter. -/
theorem c9_witness :
    ("a", OvValue.vnone) ∈ drop_unset
      [("a", OvValue.vnone), ("b", OvValue.notset), ("c", OvValue.vstr "")]
    ∧ ("c", OvValue.vstr "") ∈ drop_unset
      [("a", OvValue.vnone), ("b", OvValue.notset), ("c", OvValue.vstr "")] :=
  ⟨(c9_drop_unset
      [("a", OvValue.vnone), ("b", OvValue.notset), ("c", OvValue.vstr "")]).2.1
      ("a", OvValue.vnone) (by decide) (by decide),
    (c9_drop_unset
      [("a", OvValue.vnone), ("b", OvValue.notset), ("c", OvValue.vstr "")]).2.1
      ("c", OvValue.vstr "") (by decide) (by decide)⟩

/-- C10: in the fully resolved root tree under an empty environment (no
`PREFECT_ORION_HOST`, no override), `orion_host` resolves to the non-string
value `None`, although the source declares the field with the `str`
annotation. -/
theorem c10_orion_host_none :
    moduleLoad "/home/u" envEmpty = Except.ok msEmptyLoad
    ∧ mkSettings "/home/u" msEmptyLoad envEmpty noSettingsOv =
        Except.ok settingsFull
    ∧ settingsFull.orion_host = none
    ∧ Settings.orionHostDeclaredType = "str" :=
  ⟨rfl, rfl, rfl, rfl⟩

/-- C5 witness: the general conjunct at a concrete module state and
environment. -/
theorem c5_witness :
    mkDatabaseSettings msLoadA envEchoMaybe noDatabaseOv =
      Except.error ⟨"echo", "PREFECT_ORION_DATABASE_", "maybe", "bool"⟩ :=
  c5_type_coercion_fail_fast.2.2.2 msLoadA envEchoMaybe "maybe" rfl rfl
